import Mathlib

/-!
Formal model of the glove-controlled Skydio HTTP client (`HEDO.py`).

The development shallowly embeds the program's session/flight-phase logic, its
gesture classifier, the per-hand input loops and the calibration loop, and
proves the behavioural properties stated about them.

Modelling conventions:

* Network interaction is modelled by a script: a list of server replies, one
  consumed per HTTP request that reads a reply.  Each operation returns the
  updated `Session`, the list of requests it issued, and an outcome.
* `sleep` calls only pace the loops and are not modelled.
* The source manipulates decimal sensor readings and thresholds
  (`0.243`, `0.080972`, `60`, ...), all with at most six decimal places.  We
  embed every reading and threshold exactly as an integer in units of 10⁻⁶
  (micro-units): `0.243` is `243000`, an angle of `d` degrees is `deg d`.
  This is an exact rescaling of the source arithmetic.
-/

/-- Flight phases appearing in the `flightPhase` field of a status response
(`HEDO.py`, `takeoff`/`land`).  `other` covers unrecognized phase strings. -/
inductive Phase where
  | REST
  | FLIGHT_PROCESSES_CHECK
  | PREP
  | LOGGING_START
  | READY_FOR_GROUND_TAKEOFF
  | FLYING
  | other (s : String)
  deriving DecidableEq

/-- Client-side session state of `HTTPClient` (`HEDO.py`, `__init__`). -/
structure Session where
  client_id : String
  access_token : Option String
  access_level : Option String
  session_id : Option String
  deriving DecidableEq

/-- Relevant fields of one JSON reply to the `status` endpoint.  `flightPhase`
is `none` when the reply carries no phase (`.get('flightPhase')` falsy). -/
structure StatusResponse where
  sessionId : String
  flightPhase : Option Phase
  deriving DecidableEq

/-- HTTP requests the client can issue, abstracted to endpoint and payload. -/
inductive Request where
  | status
  | async_command (command : String)
  | set_fault_override (fault_id : Nat)
  | active_faults
  deriving DecidableEq

/-- Fields of the JSON reply to the `authentication` endpoint. -/
structure AuthResponse where
  accessLevel : Option String
  accessToken : Option String
  deriving DecidableEq

/-- Outcome of `_authenticate`: either the process exits (`sys.exit(1)`) with
the session as it was at that point, or authentication completes. -/
inductive AuthOutcome where
  | exited (code : Nat) (s : Session)
  | ok (s : Session)
  deriving DecidableEq

/-- Requested access level (`HEDO.py` line 90): `8 if pilot else 4`. -/
def requested_level (pilot : Bool) : Nat := if pilot then 8 else 4

/-- Model of `HTTPClient._authenticate` (`HEDO.py` lines 86-109) applied to the
server's reply: the granted `accessLevel` is stored, and if pilot access was
requested but not granted the process exits with code 1 before the access
token is stored.  Otherwise the token is stored and authentication succeeds. -/
def authenticate (s : Session) (pilot : Bool) (response : AuthResponse) : AuthOutcome :=
  let s1 := { s with access_level := response.accessLevel }
  if pilot = true ∧ s1.access_level ≠ some "PILOT" then
    AuthOutcome.exited 1 s1
  else
    AuthOutcome.ok { s1 with access_token := response.accessToken }

/-- Model of `HTTPClient.update_pilot_status` (`HEDO.py` lines 200-218): the
session keeps the `sessionId` of the reply. -/
def update_pilot_status (s : Session) (r : StatusResponse) : Session :=
  { s with session_id := some r.sessionId }

/-- Outcome of `takeoff`. -/
inductive TakeoffResult where
  | not_pilot
  | flying
  | out_of_script
  deriving DecidableEq

/-- The polling loop of `HTTPClient.takeoff` (`HEDO.py` lines 229-252).  Each
iteration polls `status` (consuming one scripted reply) and reads `flightPhase`:
a missing phase just continues; `READY_FOR_GROUND_TAKEOFF` publishes the
`ground_takeoff` async command; `FLYING` returns; the recognized informational
phases (`REST`, `FLIGHT_PROCESSES_CHECK`, `PREP`, `LOGGING_START`) only print;
any other phase fetches the active faults.  An exhausted script corresponds to
the real loop blocking on the next reply. -/
def takeoff_loop (s : Session) : List StatusResponse → Session × List Request × TakeoffResult
  | [] => (s, [], TakeoffResult.out_of_script)
  | r :: rest =>
    let s1 := update_pilot_status s r
    match r.flightPhase with
    | none =>
      let t := takeoff_loop s1 rest
      (t.1, Request.status :: t.2.1, t.2.2)
    | some ph =>
      if ph = Phase.READY_FOR_GROUND_TAKEOFF then
        let t := takeoff_loop s1 rest
        (t.1, Request.status :: Request.async_command "ground_takeoff" :: t.2.1, t.2.2)
      else if ph = Phase.FLYING then
        (s1, [Request.status], TakeoffResult.flying)
      else if ph = Phase.REST ∨ ph = Phase.FLIGHT_PROCESSES_CHECK ∨ ph = Phase.PREP ∨
          ph = Phase.LOGGING_START then
        let t := takeoff_loop s1 rest
        (t.1, Request.status :: t.2.1, t.2.2)
      else
        let t := takeoff_loop s1 rest
        (t.1, Request.status :: Request.active_faults :: t.2.1, t.2.2)

/-- Model of `HTTPClient.takeoff` (`HEDO.py` lines 220-252).  Without pilot
access it prints an error and returns with no request issued and no session
change.  Otherwise it refreshes the status once (consuming one reply),
disables the two phone-comms faults (ids 2 and 3, in insertion order), and
enters the polling loop. -/
def takeoff (s : Session) (script : List StatusResponse) : Session × List Request × TakeoffResult :=
  if s.access_level ≠ some "PILOT" then (s, [], TakeoffResult.not_pilot)
  else
    match script with
    | [] => (s, [Request.status], TakeoffResult.out_of_script)
    | r :: rest =>
      let s1 := update_pilot_status s r
      let t := takeoff_loop s1 rest
      (t.1, Request.status :: Request.set_fault_override 2 :: Request.set_fault_override 3 :: t.2.1,
        t.2.2)

/-- Outcome of `land`. -/
inductive LandResult where
  | not_pilot
  | landed (finalPhase : Phase)
  | out_of_script
  deriving DecidableEq

/-- The polling loop of `HTTPClient.land` (`HEDO.py` lines 260-268).  The local
`phase` starts as `FLYING`; while it equals `FLYING` the loop sends the `land`
async command, then polls `status`; a missing `flightPhase` leaves `phase`
unchanged (still `FLYING`), any other reply replaces it, and the loop exits as
soon as `phase` is no longer `FLYING`. -/
def land_loop (s : Session) : List StatusResponse → Session × List Request × LandResult
  | [] => (s, [Request.async_command "land", Request.status], LandResult.out_of_script)
  | r :: rest =>
    let s1 := update_pilot_status s r
    match r.flightPhase with
    | none =>
      let t := land_loop s1 rest
      (t.1, Request.async_command "land" :: Request.status :: t.2.1, t.2.2)
    | some ph =>
      if ph = Phase.FLYING then
        let t := land_loop s1 rest
        (t.1, Request.async_command "land" :: Request.status :: t.2.1, t.2.2)
      else
        (s1, [Request.async_command "land", Request.status], LandResult.landed ph)

/-- Model of `HTTPClient.land` (`HEDO.py` lines 254-268).  Without pilot access
it prints an error and returns with no request issued and no session change. -/
def land (s : Session) (script : List StatusResponse) : Session × List Request × LandResult :=
  if s.access_level ≠ some "PILOT" then (s, [], LandResult.not_pilot)
  else land_loop s script

/-- Number of `land` async commands in a request trace. -/
def landCmdCount (t : List Request) : Nat :=
  t.countP fun r => decide (r = Request.async_command "land")

/-- Number of `ground_takeoff` async commands in a request trace. -/
def gtCmdCount (t : List Request) : Nat :=
  t.countP fun r => decide (r = Request.async_command "ground_takeoff")

/-- Degrees expressed in micro-units (units of 10⁻⁶). -/
def deg (d : Int) : Int := d * 1000000

/-- One glove reading, in micro-units: the five rounded normalized finger
flexions (`thumb`..`pinky` = entries 0..4 of `Forte_GetFingersNormalized`) and
the orientation as read in `HEDO.py` (`X` = `IMU[2]`, `Y` = `IMU[0]`,
`Z` = `IMU[1]`; the spec calls `X` pitch and `Y` yaw). -/
structure HandSnapshot where
  thumb : Int
  index : Int
  middle : Int
  ring : Int
  pinky : Int
  X : Int
  Y : Int
  Z : Int
  deriving DecidableEq

/-- THUMBS-UP rule of the left hand (`HEDO.py` lines 560-561). -/
def left_thumbs_up_cond (h : HandSnapshot) : Bool :=
  decide (h.index - h.thumb ≥ 243000 ∧ h.middle - h.thumb ≥ 243000 ∧
    h.ring - h.thumb ≥ 243000 ∧ h.pinky - h.thumb ≥ 243000 ∧ h.Y ≥ deg 60)

/-- THUMBS-UP rule of the right hand (`HEDO.py` lines 679-680): same flexion
deltas, but `YR <= -60`. -/
def right_thumbs_up_cond (h : HandSnapshot) : Bool :=
  decide (h.index - h.thumb ≥ 243000 ∧ h.middle - h.thumb ≥ 243000 ∧
    h.ring - h.thumb ≥ 243000 ∧ h.pinky - h.thumb ≥ 243000 ∧ h.Y ≤ deg (-60))

/-- PEACE rule, identical on both hands (`HEDO.py` lines 575 and 694). -/
def peace_cond (h : HandSnapshot) : Bool :=
  decide (h.ring - h.middle ≥ 243000 ∧ h.pinky - h.index ≥ 243000 ∧ h.thumb ≥ 40490)

/-- GO BULLS rule, identical on both hands (`HEDO.py` lines 589-591 and 708). -/
def go_bulls_cond (h : HandSnapshot) : Bool :=
  decide (h.middle - h.index ≥ 243000 ∧ h.ring - h.pinky ≥ 243000 ∧
    h.index ≤ 243000 ∧ h.pinky ≤ 243000 ∧
    (0 ≥ h.X ∧ h.X ≥ deg (-120)) ∧ (deg 25 ≥ h.Y ∧ h.Y ≥ deg (-25)))

/-- HALT (raised fist) rule, identical on both hands (`HEDO.py` lines 605-606
and 722); the fourth conjunct is the source's `Lhand`/`Rhand` flexion sum. -/
def halt_cond (h : HandSnapshot) : Bool :=
  decide (h.thumb ≥ 121460 ∧ h.index ≥ 243000 ∧ h.middle ≥ 243000 ∧
    h.thumb + h.index + h.middle + h.ring + h.pinky ≥ 2226720 ∧
    (0 ≥ h.X ∧ h.X ≥ deg (-120)) ∧ (deg 25 ≥ h.Y ∧ h.Y ≥ deg (-25)))

/-- LAND (flat palm) rule of the left hand (`HEDO.py` line 618):
all five flexions at most `0.080972`, `XL` and `YL` within `±25`. -/
def left_land_cond (h : HandSnapshot) : Bool :=
  decide (h.thumb ≤ 80972 ∧ h.index ≤ 80972 ∧ h.middle ≤ 80972 ∧
    h.ring ≤ 80972 ∧ h.pinky ≤ 80972 ∧
    (deg (-25) ≤ h.X ∧ h.X ≤ deg 25) ∧ (deg (-25) ≤ h.Y ∧ h.Y ≤ deg 25))

/-- LAND (flat palm) rule of the right hand (`HEDO.py` line 734): as on the
left hand except that the `YR` range is `-15 <= YR <= 25`. -/
def right_land_cond (h : HandSnapshot) : Bool :=
  decide (h.thumb ≤ 80972 ∧ h.index ≤ 80972 ∧ h.middle ≤ 80972 ∧
    h.ring ≤ 80972 ∧ h.pinky ≤ 80972 ∧
    (deg (-25) ≤ h.X ∧ h.X ≤ deg 25) ∧ (deg (-15) ≤ h.Y ∧ h.Y ≤ deg 25))

/-- Gesture labels produced by the classifiers. -/
inductive Gesture where
  | THUMBS_UP
  | PEACE
  | GO_BULLS
  | HALT
  | LAND
  | NONE
  deriving DecidableEq

/-- The left hand's ordered gesture decision list (`HEDO.py` lines 558-629):
the `if`/`elif` chain of `left_hand`, first matching rule wins. -/
def left_classify (h : HandSnapshot) : Gesture :=
  if left_thumbs_up_cond h then Gesture.THUMBS_UP
  else if peace_cond h then Gesture.PEACE
  else if go_bulls_cond h then Gesture.GO_BULLS
  else if halt_cond h then Gesture.HALT
  else if left_land_cond h then Gesture.LAND
  else Gesture.NONE

/-- The right hand's ordered gesture decision list (`HEDO.py` lines 677-745). -/
def right_classify (h : HandSnapshot) : Gesture :=
  if right_thumbs_up_cond h then Gesture.THUMBS_UP
  else if peace_cond h then Gesture.PEACE
  else if go_bulls_cond h then Gesture.GO_BULLS
  else if halt_cond h then Gesture.HALT
  else if right_land_cond h then Gesture.LAND
  else Gesture.NONE

/-- Externally visible actions of one input-loop iteration: the haptic
acknowledgment played for a recognized gesture, and the vehicle calls
`client.takeoff()` / `client.land()`. -/
inductive HandAction where
  | haptic_ack (g : Gesture)
  | takeoff_call
  | land_call
  deriving DecidableEq

/-- Gesture dispatch of one `left_hand` iteration (`HEDO.py` lines 558-629).
Every recognized gesture plays its haptic acknowledgment; LAND then calls
`client.land()`.  In the left-hand THUMBS-UP branch the
`client.takeoff()` call sits inside a string literal (lines 570-571), so it is
never executed; the PEACE/GO_BULLS skill switches are commented out and HALT's
skill is a placeholder, so none of them issues a vehicle call. -/
def left_dispatch (h : HandSnapshot) : List HandAction :=
  match left_classify h with
  | Gesture.THUMBS_UP => [HandAction.haptic_ack Gesture.THUMBS_UP]
  | Gesture.PEACE => [HandAction.haptic_ack Gesture.PEACE]
  | Gesture.GO_BULLS => [HandAction.haptic_ack Gesture.GO_BULLS]
  | Gesture.HALT => [HandAction.haptic_ack Gesture.HALT]
  | Gesture.LAND => [HandAction.haptic_ack Gesture.LAND, HandAction.land_call]
  | Gesture.NONE => []

/-- Gesture dispatch of one `right_hand` iteration (`HEDO.py` lines 677-745).
Unlike the left hand, the right-hand THUMBS-UP branch does call
`client.takeoff()` (line 690), after the haptic acknowledgment. -/
def right_dispatch (h : HandSnapshot) : List HandAction :=
  match right_classify h with
  | Gesture.THUMBS_UP => [HandAction.haptic_ack Gesture.THUMBS_UP, HandAction.takeoff_call]
  | Gesture.PEACE => [HandAction.haptic_ack Gesture.PEACE]
  | Gesture.GO_BULLS => [HandAction.haptic_ack Gesture.GO_BULLS]
  | Gesture.HALT => [HandAction.haptic_ack Gesture.HALT]
  | Gesture.LAND => [HandAction.haptic_ack Gesture.LAND, HandAction.land_call]
  | Gesture.NONE => []

/-- Result of one device poll: a fresh snapshot, or a
`GloveDisconnectedException` raised while reading the glove. -/
inductive PollResult where
  | sample (h : HandSnapshot)
  | disconnected
  deriving DecidableEq

/-- One iteration of the `left_hand` loop (`HEDO.py` lines 531-639): a sampled
snapshot is dispatched; a disconnection is caught by the handler at lines
632-639, which calls `client.land()` once as fail-safe and resumes. -/
def left_iteration : PollResult → List HandAction
  | PollResult.sample h => left_dispatch h
  | PollResult.disconnected => [HandAction.land_call]

/-- One iteration of the `right_hand` loop (`HEDO.py` lines 650-754), with the
disconnection handler at lines 747-754. -/
def right_iteration : PollResult → List HandAction
  | PollResult.sample h => right_dispatch h
  | PollResult.disconnected => [HandAction.land_call]

/-- The `left_hand` input loop run over a script of poll results. -/
def left_loop : List PollResult → List HandAction
  | [] => []
  | p :: rest => left_iteration p ++ left_loop rest

/-- The `right_hand` input loop run over a script of poll results. -/
def right_loop : List PollResult → List HandAction
  | [] => []
  | p :: rest => right_iteration p ++ right_loop rest

/-- One simultaneous orientation sample of both hands during calibration
(`HEDO.py` lines 460-468), in micro-degrees. -/
structure EulerSample where
  XL : Int
  YL : Int
  ZL : Int
  XR : Int
  YR : Int
  ZR : Int
  deriving DecidableEq

/-- The sentinel previous values set before the first calibration sample
(`HEDO.py` lines 424-430): 1000 on every axis, which real angles can never be
within 10 degrees of, so the first sample never commits. -/
def initial_previous : EulerSample :=
  ⟨deg 1000, deg 1000, deg 1000, deg 1000, deg 1000, deg 1000⟩

/-- The stability test of `calibrate` (`HEDO.py` line 470): every axis of both
hands moved by no more than 10 degrees since the previous sample. -/
def calib_stable (p s : EulerSample) : Bool :=
  decide ((-(deg 10) ≤ s.XL - p.XL ∧ s.XL - p.XL ≤ deg 10) ∧
    (-(deg 10) ≤ s.YL - p.YL ∧ s.YL - p.YL ≤ deg 10) ∧
    (-(deg 10) ≤ s.ZL - p.ZL ∧ s.ZL - p.ZL ≤ deg 10) ∧
    (-(deg 10) ≤ s.XR - p.XR ∧ s.XR - p.XR ≤ deg 10) ∧
    (-(deg 10) ≤ s.YR - p.YR ∧ s.YR - p.YR ≤ deg 10) ∧
    (-(deg 10) ≤ s.ZR - p.ZR ∧ s.ZR - p.ZR ≤ deg 10))

/-- The sampling loop of `calibrate` (`HEDO.py` lines 419-513) run over a
script of samples, carrying the previous sample and the index `k` of the
current step.  A stable step commits the zero-reference
(`Forte_CalibrateFlat` and `Forte_HomeIMU` on both gloves), sets
`neutralL`/`neutralR` to 1 so the loop exits, and the remaining script is
returned unconsumed; otherwise the step's sample becomes the new previous
values and sampling continues. -/
def calibrate_loop : EulerSample → List EulerSample → Nat → Option Nat × List EulerSample
  | _, [], _ => (none, [])
  | prev, s :: rest, k =>
    if calib_stable prev s then (some k, rest)
    else calibrate_loop s rest (k + 1)

/-- The whole `calibrate` procedure over a script of samples: the index of the
committing step (if any) and the samples never polled because the loop
terminated. -/
def calibrate (script : List EulerSample) : Option Nat × List EulerSample :=
  calibrate_loop initial_previous script 0

/-- Modelled from the claim's words: the first step (counting from `k`) whose
sample moved by at most 10 degrees on every axis of both hands relative to the
previous step's sample. -/
def first_consec_stable : EulerSample → List EulerSample → Nat → Option Nat
  | _, [], _ => none
  | p, s :: rest, k =>
    if calib_stable p s then some k else first_consec_stable s rest (k + 1)

/-- Physically meaningful orientation samples: every axis within ±360 degrees.
Such a sample is never within 10 degrees of the 1000-degree sentinel. -/
def sample_in_range (s : EulerSample) : Bool :=
  decide (-(deg 360) ≤ s.XL ∧ s.XL ≤ deg 360 ∧ -(deg 360) ≤ s.YL ∧ s.YL ≤ deg 360 ∧
    -(deg 360) ≤ s.ZL ∧ s.ZL ≤ deg 360 ∧ -(deg 360) ≤ s.XR ∧ s.XR ≤ deg 360 ∧
    -(deg 360) ≤ s.YR ∧ s.YR ≤ deg 360 ∧ -(deg 360) ≤ s.ZR ∧ s.ZR ≤ deg 360)

/-- A session holding pilot access, as granted to the script's own client. -/
def pilot_session : Session := ⟨"client-0", some "token-0", some "PILOT", none⟩

/-- A session whose granted access level is not `PILOT`. -/
def non_pilot_session : Session := ⟨"client-1", some "token-1", some "PHONE", none⟩

/-- Scripted status replies whose phases are `FLYING, FLYING, REST`. -/
def c1_script : List StatusResponse :=
  [⟨"s1", some Phase.FLYING⟩, ⟨"s2", some Phase.FLYING⟩, ⟨"s3", some Phase.REST⟩]

/-- The request trace `land` produces on `c1_script`. -/
def c1_trace : List Request :=
  [Request.async_command "land", Request.status,
   Request.async_command "land", Request.status,
   Request.async_command "land", Request.status]

/-- Scripted status replies whose phases are
`REST, PREP, READY_FOR_GROUND_TAKEOFF, READY_FOR_GROUND_TAKEOFF, FLYING`. -/
def c6_script : List StatusResponse :=
  [⟨"t1", some Phase.REST⟩, ⟨"t2", some Phase.PREP⟩,
   ⟨"t3", some Phase.READY_FOR_GROUND_TAKEOFF⟩,
   ⟨"t4", some Phase.READY_FOR_GROUND_TAKEOFF⟩,
   ⟨"t5", some Phase.FLYING⟩]

/-- The request trace `takeoff` produces on `c6_script`: the initial status
refresh consumes the `REST` reply, the two fault overrides follow, and then the
loop polls `PREP`, twice `READY_FOR_GROUND_TAKEOFF` (each poll immediately
followed by one `ground_takeoff` command) and `FLYING`. -/
def c6_trace : List Request :=
  [Request.status, Request.set_fault_override 2, Request.set_fault_override 3,
   Request.status,
   Request.status, Request.async_command "ground_takeoff",
   Request.status, Request.async_command "ground_takeoff",
   Request.status]

/-- A session before authentication. -/
def auth_demo_session : Session := ⟨"client-2", none, none, none⟩

/-- An authentication reply granting only `PHONE` access. -/
def auth_demo_response : AuthResponse := ⟨some "PHONE", some "token-2"⟩

/-- The fully open palm: all five flexions `0.0`, orientation `0, 0, 0`. -/
def open_palm : HandSnapshot := ⟨0, 0, 0, 0, 0, 0, 0, 0⟩

/-- A right-hand snapshot with all flexions `0.0`, pitch `0` and yaw `-20`. -/
def c2_right_ex : HandSnapshot := ⟨0, 0, 0, 0, 0, 0, deg (-20), 0⟩

/-- A left-hand THUMBS-UP snapshot: thumb flat, the other four fingers at
`0.3`, yaw `70`. -/
def c3_left_ex : HandSnapshot := ⟨0, 300000, 300000, 300000, 300000, 0, deg 70, 0⟩

/-- A right-hand THUMBS-UP snapshot: thumb flat, the other four fingers at
`0.3`, yaw `-70`. -/
def c3_right_ex : HandSnapshot := ⟨0, 300000, 300000, 300000, 300000, 0, deg (-70), 0⟩

/-- Two calibration samples: hands level, then the left hand rotated by 5
degrees about one axis — within the 10-degree stability margin. -/
def calib_demo_0 : EulerSample := ⟨0, 0, 0, 0, 0, 0⟩

/-- Second calibration sample, 5 degrees away from `calib_demo_0`. -/
def calib_demo_1 : EulerSample := ⟨deg 5, 0, 0, 0, 0, 0⟩

/-- Claim C1 counterexample: with the scripted status-response phase sequence
`FLYING, FLYING, REST`, `land()` does not issue exactly two `land` async
commands (it issues one at the start of each of the three polling iterations,
so three in total). -/
theorem land_c1_two_commands_false :
    (landCmdCount (land pilot_session c1_script).2.1 = 2) = False :=
  eq_false (by decide)

/-- Claim C1 (amended): for the scripted status-response phase sequence
`FLYING, FLYING, REST`, a call to `land()` with PILOT access issues exactly
three `land` async commands — one at the start of each polling iteration —
and returns upon observing `REST`. -/
theorem land_c1_issues_three_commands :
    land pilot_session c1_script =
      ({ pilot_session with session_id := some "s3" }, c1_trace,
        LandResult.landed Phase.REST) ∧
    landCmdCount c1_trace = 3 := by
  exact ⟨by decide, by decide⟩

/-- Claim C6: for the scripted status-response phase sequence
`REST, PREP, READY_FOR_GROUND_TAKEOFF, READY_FOR_GROUND_TAKEOFF, FLYING`,
`takeoff()` with PILOT access issues exactly one `ground_takeoff` async
command per poll that observes `READY_FOR_GROUND_TAKEOFF` (two in total, each
immediately after its poll in the trace) and returns immediately upon
observing `FLYING`, issuing no further request. -/
theorem takeoff_scripted_run :
    takeoff pilot_session c6_script =
      ({ pilot_session with session_id := some "t5" }, c6_trace,
        TakeoffResult.flying) ∧
    gtCmdCount c6_trace = 2 := by
  exact ⟨by decide, by decide⟩

/-- Claim C5: if authentication is requested at PILOT level and the server's
reply grants an access level other than `PILOT`, `_authenticate` exits the
process with code 1: the access token is never stored and no further request
(polling or command) can be issued. -/
theorem auth_pilot_mismatch_exits (s : Session) (response : AuthResponse)
    (hne : response.accessLevel ≠ some "PILOT") :
    authenticate s true response =
      AuthOutcome.exited 1 { s with access_level := response.accessLevel } := by
  simp [authenticate, hne]

/-- Witness for claim C5 at a concrete session and reply granting `PHONE`. -/
theorem auth_pilot_mismatch_exits_witness :
    authenticate auth_demo_session true auth_demo_response =
      AuthOutcome.exited 1
        { auth_demo_session with access_level := auth_demo_response.accessLevel } :=
  auth_pilot_mismatch_exits auth_demo_session auth_demo_response (by decide)

/-- Claim C7: for every session whose access level is not `PILOT`, `takeoff()`
refuses the operation and returns without side effects: it issues no status
refresh, fault override or command request, and no `Session` field changes. -/
theorem takeoff_not_pilot_no_side_effects (s : Session) (script : List StatusResponse)
    (hne : s.access_level ≠ some "PILOT") :
    takeoff s script = (s, [], TakeoffResult.not_pilot) := by
  simp [takeoff, hne]

/-- Witness for claim C7 at a concrete non-pilot session and script. -/
theorem takeoff_not_pilot_no_side_effects_witness :
    takeoff non_pilot_session c6_script = (non_pilot_session, [], TakeoffResult.not_pilot) :=
  takeoff_not_pilot_no_side_effects non_pilot_session c6_script (by decide)

/-- Claim C10: for every session whose access level is not `PILOT`, `land()`
returns immediately without issuing any `land` command or status poll and
without changing the session — so the disconnection fail-safe land is a silent
no-op when PILOT access was never granted. -/
theorem land_not_pilot_silent_noop (s : Session) (script : List StatusResponse)
    (hne : s.access_level ≠ some "PILOT") :
    land s script = (s, [], LandResult.not_pilot) := by
  simp [land, hne]

/-- Witness for claim C10 at a concrete non-pilot session and script. -/
theorem land_not_pilot_silent_noop_witness :
    land non_pilot_session c1_script = (non_pilot_session, [], LandResult.not_pilot) :=
  land_not_pilot_silent_noop non_pilot_session c1_script (by decide)

/-- Claim C8: the fully open palm (all five flexions `0.0`, orientation
`0, 0, 0`) classifies as LAND on both hands, and it matches no other gesture
rule: not THUMBS-UP (of either hand), PEACE, GO BULLS or HALT. -/
theorem open_palm_classifies_land_only :
    left_classify open_palm = Gesture.LAND ∧
    right_classify open_palm = Gesture.LAND ∧
    left_thumbs_up_cond open_palm = false ∧
    right_thumbs_up_cond open_palm = false ∧
    peace_cond open_palm = false ∧
    go_bulls_cond open_palm = false ∧
    halt_cond open_palm = false ∧
    left_land_cond open_palm = true ∧
    right_land_cond open_palm = true := by
  decide

/-- The left input loop distributes over script concatenation. -/
theorem left_loop_append (a b : List PollResult) :
    left_loop (a ++ b) = left_loop a ++ left_loop b := by
  induction a with
  | nil => simp [left_loop]
  | cons p rest ih => simp [left_loop, ih]

/-- The right input loop distributes over script concatenation. -/
theorem right_loop_append (a b : List PollResult) :
    right_loop (a ++ b) = right_loop a ++ right_loop b := by
  induction a with
  | nil => simp [right_loop]
  | cons p rest ih => simp [right_loop, ih]

/-- Claim C4: for every device-disconnection event raised during either hand's
input loop, `land()` is invoked exactly once before that loop resumes polling:
the actions of the run are exactly those before the event, then a single
`land()` call, then the actions of the resumed loop. -/
theorem disconnect_failsafe_lands_once (pre post : List PollResult) :
    left_loop (pre ++ PollResult.disconnected :: post) =
      left_loop pre ++ HandAction.land_call :: left_loop post ∧
    right_loop (pre ++ PollResult.disconnected :: post) =
      right_loop pre ++ HandAction.land_call :: right_loop post := by
  constructor
  · rw [left_loop_append]
    simp [left_loop, left_iteration]
  · rw [right_loop_append]
    simp [right_loop, right_iteration]

/-- Claim C3 counterexample: a left-hand snapshot that classifies as
THUMBS-UP whose iteration does not invoke `client.takeoff()` — the left-hand
takeoff call is disabled inside a string literal (`HEDO.py` lines 570-571). -/
theorem left_thumbs_up_issues_no_takeoff :
    left_classify c3_left_ex = Gesture.THUMBS_UP ∧
    (HandAction.takeoff_call ∈ left_dispatch c3_left_ex) = False :=
  ⟨by decide, eq_false (by decide)⟩

/-- Claim C3 (amended): in the right hand's input loop, every iteration whose
snapshot classifies as THUMBS-UP dispatches `client.takeoff()` after the
haptic acknowledgment; the left hand's loop never invokes takeoff on any
snapshot (its takeoff call is disabled), performing only the haptic
acknowledgment on THUMBS-UP. -/
theorem thumbs_up_dispatch_amended (h : HandSnapshot) :
    (right_classify h = Gesture.THUMBS_UP →
      right_dispatch h = [HandAction.haptic_ack Gesture.THUMBS_UP, HandAction.takeoff_call]) ∧
    (HandAction.takeoff_call ∈ left_dispatch h) = False := by
  constructor
  · intro hc
    simp [right_dispatch, hc]
  · refine eq_false ?_
    intro hmem
    revert hmem
    unfold left_dispatch
    cases left_classify h <;> simp

/-- Witness for claim C3's amended statement at concrete THUMBS-UP
snapshots of each hand. -/
theorem thumbs_up_dispatch_amended_witness :
    right_dispatch c3_right_ex =
      [HandAction.haptic_ack Gesture.THUMBS_UP, HandAction.takeoff_call] ∧
    (HandAction.takeoff_call ∈ left_dispatch c3_left_ex) = False :=
  ⟨(thumbs_up_dispatch_amended c3_right_ex).1 (by decide),
   (thumbs_up_dispatch_amended c3_left_ex).2⟩

/-- Claim C2 counterexample: a right-hand snapshot with all five flexions `0`,
pitch `0` and yaw `-20` does not classify as LAND (the right-hand rule's yaw
range is `-15 <= YR <= 25`, not `±25`; the snapshot classifies as NONE). -/
theorem right_open_palm_negative_yaw_not_land :
    right_classify c2_right_ex = Gesture.NONE ∧
    (right_classify c2_right_ex = Gesture.LAND) = False :=
  ⟨by decide, eq_false (by decide)⟩

/-- Claim C2 (amended): for snapshots with nonnegative index and middle
flexions, the left hand classifies as LAND exactly when all five flexions are
at most `0.080972` and both pitch and yaw lie within `-25` to `+25` degrees,
while the right hand classifies as LAND exactly when all five flexions are at
most `0.080972`, pitch lies within `-25` to `+25` degrees and yaw lies within
`-15` to `+25` degrees. -/
theorem classify_land_iff_land_rule (h : HandSnapshot)
    (hIdx : 0 ≤ h.index) (hMid : 0 ≤ h.middle) :
    (left_classify h = Gesture.LAND ↔ left_land_cond h = true) ∧
    (right_classify h = Gesture.LAND ↔ right_land_cond h = true) := by
  constructor
  · constructor
    · intro hc
      simp only [left_classify] at hc
      split_ifs at hc
      simp_all
    · intro hl
      obtain ⟨h1, h2, h3, h4, h5, ⟨hx1, hx2⟩, hy1, hy2⟩ := of_decide_eq_true hl
      have e1 : left_thumbs_up_cond h = false := by
        refine decide_eq_false ?_
        rintro ⟨-, -, -, -, hy⟩
        simp only [deg] at hy hy2
        omega
      have e2 : peace_cond h = false := by
        refine decide_eq_false ?_
        rintro ⟨hr, -, -⟩
        omega
      have e3 : go_bulls_cond h = false := by
        refine decide_eq_false ?_
        rintro ⟨hm, -⟩
        omega
      have e4 : halt_cond h = false := by
        refine decide_eq_false ?_
        rintro ⟨ht, -⟩
        omega
      simp [left_classify, e1, e2, e3, e4, hl]
  · constructor
    · intro hc
      simp only [right_classify] at hc
      split_ifs at hc
      simp_all
    · intro hl
      obtain ⟨h1, h2, h3, h4, h5, ⟨hx1, hx2⟩, hy1, hy2⟩ := of_decide_eq_true hl
      have e1 : right_thumbs_up_cond h = false := by
        refine decide_eq_false ?_
        rintro ⟨-, -, -, -, hy⟩
        simp only [deg] at hy hy1
        omega
      have e2 : peace_cond h = false := by
        refine decide_eq_false ?_
        rintro ⟨hr, -, -⟩
        omega
      have e3 : go_bulls_cond h = false := by
        refine decide_eq_false ?_
        rintro ⟨hm, -⟩
        omega
      have e4 : halt_cond h = false := by
        refine decide_eq_false ?_
        rintro ⟨ht, -⟩
        omega
      simp [right_classify, e1, e2, e3, e4, hl]

/-- Witness for claim C2's amended statement at the fully open palm, which is
classified LAND by both hands. -/
theorem classify_land_iff_land_rule_witness :
    (left_classify open_palm = Gesture.LAND ↔ left_land_cond open_palm = true) ∧
    (right_classify open_palm = Gesture.LAND ↔ right_land_cond open_palm = true) :=
  classify_land_iff_land_rule open_palm (by decide) (by decide)

/-- The committing step found by the calibration loop is the first
consecutively-stable step. -/
theorem calibrate_loop_fst (l : List EulerSample) :
    ∀ (p : EulerSample) (k : Nat),
      (calibrate_loop p l k).1 = first_consec_stable p l k := by
  induction l with
  | nil =>
    intro p k
    rfl
  | cons s rest ih =>
    intro p k
    by_cases hs : calib_stable p s = true
    · simp [calibrate_loop, first_consec_stable, hs]
    · simp [calibrate_loop, first_consec_stable, hs, ih]

/-- When the calibration loop commits at step `i`, the loop terminates there:
the part of the script after step `i` is returned unconsumed. -/
theorem calibrate_loop_stops (l : List EulerSample) :
    ∀ (p : EulerSample) (k i : Nat),
      (calibrate_loop p l k).1 = some i →
      k ≤ i ∧ (calibrate_loop p l k).2 = l.drop (i + 1 - k) := by
  induction l with
  | nil =>
    intro p k i hsome
    simp [calibrate_loop] at hsome
  | cons s rest ih =>
    intro p k i hsome
    by_cases hs : calib_stable p s = true
    · simp only [calibrate_loop, hs, if_true, Option.some.injEq] at hsome
      subst hsome
      refine ⟨le_refl k, ?_⟩
      have hone : k + 1 - k = 1 := by omega
      simp [calibrate_loop, hs, hone]
    · simp only [calibrate_loop, hs, if_false, Bool.false_eq_true] at hsome ⊢
      obtain ⟨hk, hdrop⟩ := ih s (k + 1) i hsome
      refine ⟨by omega, ?_⟩
      rw [hdrop]
      have hsucc : i + 1 - k = (i + 1 - (k + 1)) + 1 := by omega
      rw [hsucc, List.drop_succ_cons]

/-- Claim C9: run over a script of physically meaningful orientation samples,
calibration commits the zero-reference (flat-calibrate and IMU-home on both
gloves) in a sampling step if and only if every axis of both hands changed by
at most 10 degrees between that step's sample and the previous step's sample,
and the committing step is the first such step (the first step has no previous
sample and never commits, because the sentinel previous values are 1000).
After committing at step `i`, calibration terminates — the rest of the script
is never sampled — so it is never re-entered. -/
theorem calibrate_commit_iff_consecutive_stable (s0 : EulerSample)
    (rest : List EulerSample)
    (hrange : ∀ t ∈ s0 :: rest, sample_in_range t = true) :
    (calibrate (s0 :: rest)).1 = first_consec_stable s0 rest 1 ∧
    ∀ i, (calibrate (s0 :: rest)).1 = some i →
      1 ≤ i ∧ (calibrate (s0 :: rest)).2 = rest.drop i := by
  have h0 : calib_stable initial_previous s0 = false := by
    refine decide_eq_false ?_
    have hr := of_decide_eq_true (hrange s0 (List.mem_cons_self s0 rest))
    obtain ⟨hXLa, hXLb, -⟩ := hr
    rintro ⟨⟨hs1, -⟩, -⟩
    simp only [initial_previous, deg] at hs1 hXLa hXLb
    omega
  have hcal : calibrate (s0 :: rest) = calibrate_loop s0 rest 1 := by
    simp [calibrate, calibrate_loop, h0]
  constructor
  · rw [hcal, calibrate_loop_fst]
  · intro i hsome
    rw [hcal] at hsome
    obtain ⟨hk, hdrop⟩ := calibrate_loop_stops rest s0 1 i hsome
    refine ⟨hk, ?_⟩
    rw [hcal, hdrop]
    have hone : i + 1 - 1 = i := by omega
    rw [hone]

/-- Witness for claim C9 at a concrete two-sample script whose second sample
is within the 10-degree stability margin of the first: calibration commits at
step 1. -/
theorem calibrate_commit_iff_consecutive_stable_witness :
    (calibrate [calib_demo_0, calib_demo_1]).1 =
      first_consec_stable calib_demo_0 [calib_demo_1] 1 :=
  (calibrate_commit_iff_consecutive_stable calib_demo_0 [calib_demo_1] (by decide)).1
